import Mathlib

/-!
Shallow embedding of the simulation core of the asteroid game
(source files asteroid.rs, missile.rs, vaisseau.rs, stellarobject.rs, main.rs).

Modelling conventions:
- f32 and f64 values are modelled as real numbers.
- macroquad globals screen_width and screen_height become explicit parameters W, H.
- keyboard state (is_key_down) becomes explicit booleans passed to the functions
  that poll it.
- the thread rng is abstracted into oracle streams passed explicitly; a call
  rand gen_range(lo..hi) with a unit draw u in the interval 0 to 1 yields
  lo + u * (hi - lo); it panics when lo is not below hi.
- Rust operations that can panic, namely Vec remove with an out of range index
  and gen_range on an empty range, are modelled with Option, where none means
  the program panics.
-/

noncomputable section

open scoped Classical

/-- Two dimensional vector of reals, modelling macroquad Vec2 (a pair of f32). -/
structure Vec2 where
  x : ℝ
  y : ℝ

instance : Add Vec2 := ⟨fun u v => ⟨u.x + v.x, u.y + v.y⟩⟩

instance : Sub Vec2 := ⟨fun u v => ⟨u.x - v.x, u.y - v.y⟩⟩

instance : Neg Vec2 := ⟨fun u => ⟨-u.x, -u.y⟩⟩

instance : Zero Vec2 := ⟨⟨0, 0⟩⟩

instance : SMul ℝ Vec2 := ⟨fun c v => ⟨c * v.x, c * v.y⟩⟩

/-- Vec2 length_squared. -/
def Vec2.length_squared (v : Vec2) : ℝ := v.x ^ 2 + v.y ^ 2

/-- Vec2 length, the euclidean norm. -/
def Vec2.length (v : Vec2) : ℝ := Real.sqrt (v.x ^ 2 + v.y ^ 2)

/-- Vec2 normalize: the vector divided by its length. -/
def Vec2.normalize (v : Vec2) : Vec2 :=
  ⟨v.x / Vec2.length v, v.y / Vec2.length v⟩

/-- Dot product of two Vec2. -/
def Vec2.dot (u v : Vec2) : ℝ := u.x * v.x + u.y * v.y

/-- Asteroid state (asteroid.rs): position, speed, level, collision flag. -/
structure Asteroid where
  position : Vec2
  speed : Vec2
  level : ℕ
  has_collided : Bool

/-- Missile state (missile.rs): position, speed, collision flag. -/
structure Missile where
  position : Vec2
  speed : Vec2
  has_collided : Bool

/-- Craft state (vaisseau.rs): position, rotation, speed, shield, last shot time. -/
structure Vaisseau where
  position : Vec2
  rotation : ℝ
  speed : Vec2
  shield : ℝ
  last_shot : ℝ

/-- Keyboard state polled by Vaisseau update_position: arrow keys. -/
structure Inputs where
  right : Bool
  left : Bool
  up : Bool
  down : Bool

/-- Asteroid wrap_position (asteroid.rs line 124): negative coordinates gain max,
coordinates above max lose max. -/
def Asteroid.wrap_position (coord max : ℝ) : ℝ :=
  if coord < 0 then max + coord
  else if max < coord then coord - max
  else coord

/-- Asteroid bound_position: wrap both axes against the screen size W, H. -/
def Asteroid.bound_position (pos : Vec2) (W H : ℝ) : Vec2 :=
  ⟨Asteroid.wrap_position pos.x W, Asteroid.wrap_position pos.y H⟩

/-- Asteroid update_position: advance by speed, then wrap to the screen. -/
def Asteroid.update_position (a : Asteroid) (W H : ℝ) : Asteroid :=
  { a with position := Asteroid.bound_position (a.position + a.speed) W H }

/-- Asteroid split_asteroid (asteroid.rs line 146): two children at the parent
position and level minus one, moving along the two unit directions
perpendicular to the missile speed, scaled by the parent speed norm. -/
def Asteroid.split_asteroid (a : Asteroid) (speed_missile : Vec2) : Asteroid × Asteroid :=
  let asteroid_speed_norm := Vec2.length a.speed
  let perpendicular_direction_1 := Vec2.normalize ⟨-speed_missile.y, speed_missile.x⟩
  let perpendicular_direction_2 := Vec2.normalize ⟨speed_missile.y, -speed_missile.x⟩
  (⟨a.position, asteroid_speed_norm • perpendicular_direction_1, a.level - 1, false⟩,
   ⟨a.position, asteroid_speed_norm • perpendicular_direction_2, a.level - 1, false⟩)

/-- Asteroid handle_collision (asteroid.rs line 229): store the collided flag;
when collided with a missile (object tag 1) and the level is above 1, return
the split pair. The mutated asteroid is returned as the first component. -/
def Asteroid.handle_collision (a : Asteroid) (object : ℕ) (collided : Bool)
    (speed_missile : Vec2) : Asteroid × Option (Asteroid × Asteroid) :=
  let a' : Asteroid := { a with has_collided := collided }
  if a'.has_collided = true ∧ object = 1 ∧ 1 < a'.level then
    (a', some (Asteroid.split_asteroid a' speed_missile))
  else
    (a', none)

/-- Asteroid new (asteroid.rs line 34); the random border position drawn by
random_position is abstracted into the oracle argument random_pos, used when
no position is supplied. -/
def Asteroid.new (level : ℕ) (speed : Vec2) (level_size : ℝ × ℝ × ℝ)
    (position : Option Vec2) (random_pos : Vec2) : Asteroid :=
  { position := position.getD random_pos
    speed := speed
    level := level
    has_collided := false }

/-- Missile new (missile.rs line 28): speed from the firing angle, magnitude 1.5. -/
def Missile.new (position : Vec2) (angle : ℝ) : Missile :=
  { position := position
    speed := ⟨Real.sin angle * 1.5, -Real.cos angle * 1.5⟩
    has_collided := false }

/-- Missile is_off_screen (missile.rs line 46). -/
def Missile.is_off_screen (m : Missile) (screen_width screen_height : ℝ) : Prop :=
  m.position.x < 0 ∨ m.position.x > screen_width
    ∨ m.position.y < 0 ∨ m.position.y > screen_height

/-- Missile update_position: unconstrained translation, no wrap. -/
def Missile.update_position (m : Missile) : Missile :=
  { m with position := m.position + m.speed }

/-- Missile handle_collision (missile.rs line 118): ignore all arguments and
mark the missile collided; it never spawns asteroids. -/
def Missile.handle_collision (m : Missile) (_ : ℕ) (_ : Bool) (_ : Vec2) : Missile :=
  { m with has_collided := true }

/-- Vaisseau new (vaisseau.rs line 31): default position is the screen centre,
default last shot time is the current time t. -/
def Vaisseau.new (position : Option Vec2) (last_shot : Option ℝ) (W H t : ℝ) : Vaisseau :=
  { position := position.getD ⟨W / 2, H / 2⟩
    rotation := 0
    speed := ⟨0, 0⟩
    shield := 5
    last_shot := last_shot.getD t }

/-- Vaisseau wrap_position (vaisseau.rs line 116). Note the negative branch
computes max - coord, unlike the asteroid wrap which computes max + coord. -/
def Vaisseau.wrap_position (coord max : ℝ) : ℝ :=
  if coord < 0 then max - coord
  else if max < coord then coord - max
  else coord

/-- Vaisseau bound_position: wrap both axes with the Vaisseau wrap formula. -/
def Vaisseau.bound_position (pos : Vec2) (W H : ℝ) : Vec2 :=
  ⟨Vaisseau.wrap_position pos.x W, Vaisseau.wrap_position pos.y H⟩

/-- Vaisseau update_position (vaisseau.rs line 168). Keyboard state is the
explicit inp argument; the screen size is W, H. Rotation keys turn by 0.1
radians; up and down thrust along the heading; otherwise friction 0.995
applies above speed 0.01, below that the speed snaps to zero; the candidate
speed is normalized when its length exceeds 1; the position advances by the
resulting speed and is wrapped with Vaisseau bound_position. -/
def Vaisseau.update_position (v : Vaisseau) (inp : Inputs) (W H : ℝ) : Vaisseau :=
  let rot1 := if inp.right then v.rotation + 0.1 else v.rotation
  let rot2 := if inp.left then rot1 - 0.1 else rot1
  let accSp : Vec2 × Vec2 :=
    if inp.up then (⟨-Real.sin rot2, -Real.cos rot2⟩, v.speed)
    else if inp.down then (⟨Real.sin rot2, Real.cos rot2⟩, v.speed)
    else if 0.01 < Vec2.length v.speed then (⟨0, 0⟩, (0.995 : ℝ) • v.speed)
    else (⟨0, 0⟩, ⟨0, 0⟩)
  let new_speed := accSp.2 + accSp.1
  let sp := if 1 < Vec2.length new_speed then Vec2.normalize new_speed else new_speed
  { v with
      rotation := rot2
      speed := sp
      position := Vaisseau.bound_position (v.position + sp) W H }

/-- Vaisseau fire_missile (vaisseau.rs line 77): fires only when the space key
is held and at least 0.5 seconds passed since the last shot; then the last
shot time is updated and a missile spawns at the craft position and rotation. -/
def Vaisseau.fire_missile (v : Vaisseau) (space : Bool) (current_time : ℝ) :
    Vaisseau × Option Missile :=
  if space = true ∧ 0.5 ≤ current_time - v.last_shot then
    ({ v with last_shot := current_time }, some (Missile.new v.position v.rotation))
  else
    (v, none)

/-- Damage table of Vaisseau handle_collision (vaisseau.rs line 220). -/
def collision_damage (asteroid_level : ℕ) : ℝ :=
  if asteroid_level = 1 then 1
  else if asteroid_level = 2 then 2
  else if asteroid_level = 3 then 3
  else 0

/-- Vaisseau dmg_shield (vaisseau.rs line 55). -/
def Vaisseau.dmg_shield (v : Vaisseau) (dmg : ℝ) : Vaisseau :=
  { v with shield := v.shield - dmg }

/-- Vaisseau handle_collision (vaisseau.rs line 214): subtract the level
damage from the shield; the craft never spawns asteroids (the source returns
None, which is dropped here). -/
def Vaisseau.handle_collision (v : Vaisseau) (asteroid_level : ℕ) : Vaisseau :=
  Vaisseau.dmg_shield v (collision_damage asteroid_level)

/-- asteroid_level (main.rs line 624): size of an asteroid from the size
table, by level; the source match over the u8 level becomes an if chain. -/
def asteroid_level (a : Asteroid) (level_size : ℝ × ℝ × ℝ) : ℝ :=
  if a.level = 1 then level_size.2.2
  else if a.level = 2 then level_size.2.1
  else if a.level = 3 then level_size.1
  else 0

/-- calculate_gravity (main.rs line 407). Takes the craft position (the source
passes the craft and reads only its position). Returns zero when the distance
is zero; otherwise the unit direction from the craft to the asteroid, scaled
by the force magnitude capped at 2. -/
def calculate_gravity (vaisseau_pos : Vec2) (a : Asteroid) (g_constant : ℝ)
    (hauteur_vaisseau : ℝ) (level_size : ℝ × ℝ × ℝ) : Vec2 :=
  let direction := a.position - vaisseau_pos
  let distance := Vec2.length direction
  if distance = 0 then ⟨0, 0⟩
  else
    let unit_direction : Vec2 := ⟨direction.x / distance, direction.y / distance⟩
    let size_asteroid := asteroid_level a level_size
    let force_magnitude := g_constant * hauteur_vaisseau * size_asteroid / (distance * distance)
    let fm := if 2 < force_magnitude then 2 else force_magnitude
    fm • unit_direction

/-- Loop body of check_vaisseau_asteroids (main.rs line 324); the craft
position is read once before the loop (it is never written inside). For each
asteroid: skip when the squared distance exceeds the squared collision
distance; else apply gravity when within the gravity distance, and on a
collision with a not yet collided asteroid damage the craft and flag the
asteroid. The sound callback of the source is external and dropped. -/
def check_vaisseau_loop (vpos : Vec2) (hauteur_vaisseau gravite_dist : ℝ)
    (level_size : ℝ × ℝ × ℝ) : Vaisseau → List Asteroid → Vaisseau × List Asteroid
  | v, [] => (v, [])
  | v, a :: rest =>
    let asteroid_size := asteroid_level a level_size
    let distance_squared := Vec2.length_squared (a.position - vpos)
    let collision_distance_squared := (asteroid_size + hauteur_vaisseau) ^ 2
    if collision_distance_squared < distance_squared then
      let out := check_vaisseau_loop vpos hauteur_vaisseau gravite_dist level_size v rest
      (out.1, a :: out.2)
    else
      let dist_gravity := asteroid_size + gravite_dist
      let v1 :=
        if distance_squared ≤ dist_gravity ^ 2 then
          { v with speed := calculate_gravity vpos a 0.5 hauteur_vaisseau level_size }
        else v
      if distance_squared ≤ collision_distance_squared ∧ a.has_collided = false then
        let v2 := Vaisseau.handle_collision v1 a.level
        let a2 := (Asteroid.handle_collision a 0 true ⟨0, 0⟩).1
        let out := check_vaisseau_loop vpos hauteur_vaisseau gravite_dist level_size v2 rest
        (out.1, a2 :: out.2)
      else
        let out := check_vaisseau_loop vpos hauteur_vaisseau gravite_dist level_size v1 rest
        (out.1, a :: out.2)

/-- check_vaisseau_asteroids (main.rs line 324). -/
def check_vaisseau_asteroids (v : Vaisseau) (asteroids : List Asteroid)
    (hauteur_vaisseau : ℝ) (level_size : ℝ × ℝ × ℝ) (gravite_dist : ℝ) :
    Vaisseau × List Asteroid :=
  check_vaisseau_loop v.position hauteur_vaisseau gravite_dist level_size v asteroids

/-- Result of scanning one missile against the asteroid list
(inner loop of check_missiles_asteroids, main.rs line 491). -/
structure HitScan where
  missile : Missile
  asteroids : List Asteroid
  to_remove : List ℕ
  new_asteroids : List Asteroid
  delta : ℤ

/-- Accumulated result of scanning all missiles
(outer loop of check_missiles_asteroids). -/
structure ScanState where
  missiles : List Missile
  asteroids : List Asteroid
  to_remove : List ℕ
  new_asteroids : List Asteroid
  delta : ℤ

/-- Inner loop of check_missiles_asteroids: scan the asteroid list in order;
on the first asteroid strictly within the collision distance, add level times
10 to the score, mark the missile collided, run the asteroid collision handler
with the missile speed (collecting a possible split pair), record the index,
and stop (the break in the source). -/
def scan_one (rayon_missile : ℝ) (level_size : ℝ × ℝ × ℝ) (m : Missile) :
    List Asteroid → ℕ → HitScan
  | [], _ => ⟨m, [], [], [], 0⟩
  | a :: rest, idx =>
    let distance_squared := Vec2.length_squared (m.position - a.position)
    let asteroid_size := asteroid_level a level_size
    let collision_distance_squared := (asteroid_size + rayon_missile) ^ 2
    if collision_distance_squared ≤ distance_squared then
      let s := scan_one rayon_missile level_size m rest (idx + 1)
      ⟨s.missile, a :: s.asteroids, s.to_remove, s.new_asteroids, s.delta⟩
    else
      let m' := Missile.handle_collision m 0 true ⟨0, 0⟩
      let res := Asteroid.handle_collision a 1 true m.speed
      ⟨m', res.1 :: rest, [idx],
        (match res.2 with
         | some pr => [pr.1, pr.2]
         | none => []),
        (a.level : ℤ) * 10⟩

/-- Outer loop of check_missiles_asteroids: scan each missile in turn against
the current asteroid list, accumulating removal indices, spawned fragments and
score increments. -/
def scan_all (rayon_missile : ℝ) (level_size : ℝ × ℝ × ℝ) :
    List Missile → List Asteroid → ScanState
  | [], asteroids => ⟨[], asteroids, [], [], 0⟩
  | m :: ms, asteroids =>
    let s1 := scan_one rayon_missile level_size m asteroids 0
    let s2 := scan_all rayon_missile level_size ms s1.asteroids
    ⟨s1.missile :: s2.missiles, s2.asteroids, s1.to_remove ++ s2.to_remove,
      s1.new_asteroids ++ s2.new_asteroids, s1.delta + s2.delta⟩

/-- Insert into a descending sorted list of indices. -/
def insert_desc (n : ℕ) : List ℕ → List ℕ
  | [] => [n]
  | m :: ms => if m ≤ n then n :: m :: ms else m :: insert_desc n ms

/-- Descending sort of the removal indices, modelling
sort_unstable_by with the reversed comparator (main.rs line 521). -/
def sort_desc : List ℕ → List ℕ
  | [] => []
  | n :: ns => insert_desc n (sort_desc ns)

/-- Remove the listed indices one after the other, like the source loop of
Vec remove calls; Vec remove panics when the index is out of range, modelled
by none. -/
def remove_all : List Asteroid → List ℕ → Option (List Asteroid)
  | asteroids, [] => some asteroids
  | asteroids, i :: rest =>
    if i < asteroids.length then remove_all (asteroids.eraseIdx i) rest else none

/-- check_missiles_asteroids (main.rs line 480): scan all missiles, drop the
collided missiles, remove the recorded asteroids by descending index (none on
an out of range remove, the panic of the source), then append the fragments.
Returns the missile list, the asteroid list and the score. -/
def check_missiles_asteroids (missiles : List Missile) (asteroids : List Asteroid)
    (rayon_missile : ℝ) (level_size : ℝ × ℝ × ℝ) (score : ℤ) :
    Option (List Missile × List Asteroid × ℤ) :=
  let s := scan_all rayon_missile level_size missiles asteroids
  let ms := s.missiles.filter (fun m => !m.has_collided)
  match remove_all s.asteroids (sort_desc s.to_remove) with
  | some asts => some (ms, asts ++ s.new_asteroids, score + s.delta)
  | none => none

/-- rand gen_range(lo..hi) with a unit draw u: panics (none) unless lo < hi,
otherwise yields lo + u * (hi - lo), which lies in the half open range when
u lies in the unit interval. -/
def gen_range (lo hi u : ℝ) : Option ℝ :=
  if lo < hi then some (lo + u * (hi - lo)) else none

/-- Asteroid spawning loop of reset_game (main.rs line 591): each round draws
an angle from 0 to two pi and a speed magnitude from min_speed to max_speed,
and pushes a level 3 asteroid with speed (magnitude cos angle, magnitude sin
angle). The index i feeds the rng oracles; a gen_range panic aborts (none). -/
def spawn_asteroids (min_speed max_speed : ℝ) (level_size : ℝ × ℝ × ℝ)
    (position : Option Vec2) (rng : ℕ → ℝ × ℝ) (rng_pos : ℕ → Vec2) :
    ℕ → ℕ → Option (List Asteroid)
  | _, 0 => some []
  | i, k + 1 =>
    match gen_range 0 (2 * Real.pi) (rng i).1, gen_range min_speed max_speed (rng i).2 with
    | some angle, some speed_magnitude =>
      (spawn_asteroids min_speed max_speed level_size position rng rng_pos (i + 1) k).map
        (fun rest =>
          Asteroid.new 3 ⟨speed_magnitude * Real.cos angle, speed_magnitude * Real.sin angle⟩
            level_size position (rng_pos i) :: rest)
    | _, _ => none

/-- reset_game (main.rs line 565): in test mode the craft position is fixed at
the origin and the last shot time at 0; collections are cleared, the score is
zeroed, and number_asteroid level 3 asteroids spawn with speeds drawn from the
dynamic range min_speed = 0.2 + (1 - asteroid_speed) * 0.4,
max_speed = asteroid_speed * 2. -/
def reset_game (number_asteroid : ℕ) (asteroid_speed : ℝ) (test : Bool)
    (level_size : ℝ × ℝ × ℝ) (W H t : ℝ) (rng : ℕ → ℝ × ℝ) (rng_pos : ℕ → Vec2) :
    Option (List Asteroid × Vaisseau × List Missile × ℤ) :=
  let position : Option Vec2 := if test then some ⟨0, 0⟩ else none
  let last_shot : Option ℝ := if test then some 0 else none
  let vaisseau := Vaisseau.new position last_shot W H t
  let min_speed := 0.2 + (1 - asteroid_speed) * 0.4
  let max_speed := asteroid_speed * 2
  match spawn_asteroids min_speed max_speed level_size position rng rng_pos 0 number_asteroid with
  | some asteroids => some (asteroids, vaisseau, [], 0)
  | none => none

/-- Sum of the shield damage dealt by one run of the craft asteroid pass: an
asteroid contributes its level damage exactly when it lies within the squared
collision distance and its collided flag is not yet set. -/
def damage_sum (vpos : Vec2) (hauteur_vaisseau : ℝ) (level_size : ℝ × ℝ × ℝ) :
    List Asteroid → ℝ
  | [] => 0
  | a :: rest =>
    (if Vec2.length_squared (a.position - vpos) ≤ (asteroid_level a level_size + hauteur_vaisseau) ^ 2
        ∧ a.has_collided = false
     then collision_damage a.level else 0)
      + damage_sum vpos hauteur_vaisseau level_size rest

/-- Position within the screen rectangle. -/
def in_bounds (W H : ℝ) (p : Vec2) : Prop :=
  0 ≤ p.x ∧ p.x ≤ W ∧ 0 ≤ p.y ∧ p.y ≤ H

/-! Basic lemmas about the vector operations. -/

@[simp] theorem Vec2.add_x (u v : Vec2) : (u + v).x = u.x + v.x := rfl

@[simp] theorem Vec2.add_y (u v : Vec2) : (u + v).y = u.y + v.y := rfl

@[simp] theorem Vec2.sub_x (u v : Vec2) : (u - v).x = u.x - v.x := rfl

@[simp] theorem Vec2.sub_y (u v : Vec2) : (u - v).y = u.y - v.y := rfl

@[simp] theorem Vec2.neg_x (v : Vec2) : (-v).x = -v.x := rfl

@[simp] theorem Vec2.neg_y (v : Vec2) : (-v).y = -v.y := rfl

@[simp] theorem Vec2.smul_x (c : ℝ) (v : Vec2) : (c • v).x = c * v.x := rfl

@[simp] theorem Vec2.smul_y (c : ℝ) (v : Vec2) : (c • v).y = c * v.y := rfl

@[simp] theorem Vec2.zero_x : (0 : Vec2).x = 0 := rfl

@[simp] theorem Vec2.zero_y : (0 : Vec2).y = 0 := rfl

theorem Vec2.length_nonneg (v : Vec2) : 0 ≤ Vec2.length v := Real.sqrt_nonneg _

theorem Vec2.sq_length (v : Vec2) : Vec2.length v ^ 2 = Vec2.length_squared v :=
  Real.sq_sqrt (by positivity)

theorem Vec2.length_smul (c : ℝ) (v : Vec2) :
    Vec2.length (c • v) = |c| * Vec2.length v := by
  unfold Vec2.length
  rw [show (c • v).x ^ 2 + (c • v).y ^ 2 = c ^ 2 * (v.x ^ 2 + v.y ^ 2) by
        simp only [Vec2.smul_x, Vec2.smul_y]; ring,
      Real.sqrt_mul (sq_nonneg c), Real.sqrt_sq_eq_abs]

theorem Vec2.length_pos (v : Vec2) (hv : v ≠ ⟨0, 0⟩) : 0 < Vec2.length v := by
  have hsum : 0 < v.x ^ 2 + v.y ^ 2 := by
    by_cases hx : v.x = 0
    · have hy : v.y ≠ 0 := by
        intro hy
        exact hv (by cases v; simp_all)
      have h2 : 0 < v.y ^ 2 := by positivity
      nlinarith [sq_nonneg v.x]
    · have h2 : 0 < v.x ^ 2 := by positivity
      nlinarith [sq_nonneg v.y]
  exact Real.sqrt_pos.mpr hsum

theorem Vec2.eq_of_xy {u v : Vec2} (hx : u.x = v.x) (hy : u.y = v.y) : u = v := by
  cases u
  cases v
  simp_all

theorem Vec2.normalize_eq_smul (v : Vec2) :
    Vec2.normalize v = (Vec2.length v)⁻¹ • v := by
  unfold Vec2.normalize
  refine Vec2.eq_of_xy ?_ ?_ <;> simp [div_eq_inv_mul]

theorem Vec2.length_normalize (v : Vec2) (hv : v ≠ ⟨0, 0⟩) :
    Vec2.length (Vec2.normalize v) = 1 := by
  have hl := Vec2.length_pos v hv
  rw [Vec2.normalize_eq_smul, Vec2.length_smul, abs_inv, abs_of_pos hl,
    inv_mul_cancel₀ (ne_of_gt hl)]

/-- Claim C5: Asteroid handle_collision stores the collided argument in the
has_collided flag, and returns a split pair exactly when collided holds, the
object tag is 1 (a missile) and the level exceeds 1; hence a level 1 asteroid
never yields a split, and the craft pass call with object tag 0 never yields
a split. -/
theorem claim_C5_handle_collision (a : Asteroid) (object : ℕ) (collided : Bool)
    (vm : Vec2) :
    (Asteroid.handle_collision a object collided vm).1.has_collided = collided ∧
    ((∃ pr, (Asteroid.handle_collision a object collided vm).2 = some pr) ↔
      (collided = true ∧ object = 1 ∧ 1 < a.level)) ∧
    (a.level ≤ 1 → (Asteroid.handle_collision a object collided vm).2 = none) ∧
    (Asteroid.handle_collision a 0 collided vm).2 = none := by
  refine ⟨?_, ⟨?_, ?_⟩, ?_, ?_⟩
  · simp only [Asteroid.handle_collision]
    split_ifs <;> rfl
  · simp only [Asteroid.handle_collision]
    split_ifs with h
    · exact fun _ => h
    · rintro ⟨pr, hpr⟩
      simp at hpr
  · intro h
    simp only [Asteroid.handle_collision]
    rw [if_pos h]
    exact ⟨_, rfl⟩
  · intro h
    simp only [Asteroid.handle_collision]
    rw [if_neg (fun hc => absurd hc.2.2 (by omega))]
  · simp only [Asteroid.handle_collision]
    rw [if_neg (fun hc => absurd hc.2.1 (by omega))]

/-- Claim C2: split_asteroid on a parent of level above 1 and a nonzero
missile speed yields two children of the level one below, both at the parent
position, both with the parent speed magnitude, both moving perpendicular to
the missile speed, and with opposite directions. -/
theorem claim_C2_split_asteroid (a : Asteroid) (vm : Vec2)
    (hlevel : 1 < a.level) (hvm : vm ≠ ⟨0, 0⟩) :
    (Asteroid.split_asteroid a vm).1.level = a.level - 1 ∧
    (Asteroid.split_asteroid a vm).2.level = a.level - 1 ∧
    (Asteroid.split_asteroid a vm).1.position = a.position ∧
    (Asteroid.split_asteroid a vm).2.position = a.position ∧
    Vec2.length (Asteroid.split_asteroid a vm).1.speed = Vec2.length a.speed ∧
    Vec2.length (Asteroid.split_asteroid a vm).2.speed = Vec2.length a.speed ∧
    Vec2.dot (Asteroid.split_asteroid a vm).1.speed vm = 0 ∧
    Vec2.dot (Asteroid.split_asteroid a vm).2.speed vm = 0 ∧
    (Asteroid.split_asteroid a vm).2.speed = -(Asteroid.split_asteroid a vm).1.speed := by
  have hw1 : (⟨-vm.y, vm.x⟩ : Vec2) ≠ ⟨0, 0⟩ := by
    intro h
    apply hvm
    have hx : -vm.y = 0 := congrArg Vec2.x h
    have hy : vm.x = 0 := congrArg Vec2.y h
    exact Vec2.eq_of_xy hy (neg_eq_zero.mp hx)
  have hw2 : (⟨vm.y, -vm.x⟩ : Vec2) ≠ ⟨0, 0⟩ := by
    intro h
    apply hvm
    have hx : vm.y = 0 := congrArg Vec2.x h
    have hy : -vm.x = 0 := congrArg Vec2.y h
    exact Vec2.eq_of_xy (neg_eq_zero.mp hy) hx
  have hlen12 : Vec2.length ⟨vm.y, -vm.x⟩ = Vec2.length ⟨-vm.y, vm.x⟩ := by
    unfold Vec2.length
    dsimp only
    congr 1
    ring
  refine ⟨rfl, rfl, rfl, rfl, ?_, ?_, ?_, ?_, ?_⟩
  · show Vec2.length (Vec2.length a.speed • Vec2.normalize ⟨-vm.y, vm.x⟩)
      = Vec2.length a.speed
    rw [Vec2.length_smul, Vec2.length_normalize _ hw1, mul_one,
      abs_of_nonneg (Vec2.length_nonneg _)]
  · show Vec2.length (Vec2.length a.speed • Vec2.normalize ⟨vm.y, -vm.x⟩)
      = Vec2.length a.speed
    rw [Vec2.length_smul, Vec2.length_normalize _ hw2, mul_one,
      abs_of_nonneg (Vec2.length_nonneg _)]
  · show Vec2.dot (Vec2.length a.speed • Vec2.normalize ⟨-vm.y, vm.x⟩) vm = 0
    unfold Vec2.dot Vec2.normalize
    dsimp only [Vec2.smul_x, Vec2.smul_y]
    ring
  · show Vec2.dot (Vec2.length a.speed • Vec2.normalize ⟨vm.y, -vm.x⟩) vm = 0
    unfold Vec2.dot Vec2.normalize
    dsimp only [Vec2.smul_x, Vec2.smul_y]
    ring
  · show Vec2.length a.speed • Vec2.normalize ⟨vm.y, -vm.x⟩
      = -(Vec2.length a.speed • Vec2.normalize ⟨-vm.y, vm.x⟩)
    refine Vec2.eq_of_xy ?_ ?_ <;>
      unfold Vec2.normalize <;>
      dsimp only [Vec2.smul_x, Vec2.smul_y, Vec2.neg_x, Vec2.neg_y] <;>
      rw [hlen12] <;>
      ring

/-- Witness for claim C2: the hypotheses hold and the theorem applies at a
concrete level 2 parent with speed (3, 4) hit by a missile with speed (1, 0). -/
theorem claim_C2_witness :
    1 < (2 : ℕ) ∧ (⟨1, 0⟩ : Vec2) ≠ ⟨0, 0⟩ ∧
    Vec2.length (Asteroid.split_asteroid ⟨⟨5, 6⟩, ⟨3, 4⟩, 2, false⟩ ⟨1, 0⟩).1.speed
      = Vec2.length (⟨3, 4⟩ : Vec2) ∧
    Vec2.dot (Asteroid.split_asteroid ⟨⟨5, 6⟩, ⟨3, 4⟩, 2, false⟩ ⟨1, 0⟩).1.speed ⟨1, 0⟩ = 0 := by
  have h1 : 1 < (2 : ℕ) := by norm_num
  have h2 : (⟨1, 0⟩ : Vec2) ≠ ⟨0, 0⟩ := by
    intro h
    exact one_ne_zero (congrArg Vec2.x h)
  have h := claim_C2_split_asteroid ⟨⟨5, 6⟩, ⟨3, 4⟩, 2, false⟩ ⟨1, 0⟩ h1 h2
  exact ⟨h1, h2, h.2.2.2.2.1, h.2.2.2.2.2.2.1⟩

/-- Claim C6: the gravity pull is the zero vector when the craft and the
asteroid share a position (no division by zero); otherwise, for a nonnegative
craft radius and asteroid size, its magnitude is the force 0.5 times radius
times size over the squared distance, clamped between 0 and 2, and its
direction the unit vector from the craft to the asteroid; and within gravity
range the craft pass replaces the craft speed with the pull. -/
theorem claim_C6_gravity (vpos : Vec2) (a : Asteroid) (h : ℝ) (ls : ℝ × ℝ × ℝ) :
    (a.position = vpos → calculate_gravity vpos a 0.5 h ls = ⟨0, 0⟩) ∧
    (a.position ≠ vpos → 0 ≤ h → 0 ≤ asteroid_level a ls →
      Vec2.length (calculate_gravity vpos a 0.5 h ls)
          = max 0 (min 2 (0.5 * h * asteroid_level a ls
              / Vec2.length_squared (a.position - vpos))) ∧
      calculate_gravity vpos a 0.5 h ls
          = Vec2.length (calculate_gravity vpos a 0.5 h ls)
              • Vec2.normalize (a.position - vpos)) ∧
    (∀ (v : Vaisseau) (gd : ℝ),
      Vec2.length_squared (a.position - v.position) ≤ (asteroid_level a ls + h) ^ 2 →
      Vec2.length_squared (a.position - v.position) ≤ (asteroid_level a ls + gd) ^ 2 →
      (check_vaisseau_asteroids v [a] h ls gd).1.speed
          = calculate_gravity v.position a 0.5 h ls) := by
  refine ⟨?_, ?_, ?_⟩
  · intro hpos
    have hdir : a.position - vpos = ⟨0, 0⟩ := by
      refine Vec2.eq_of_xy ?_ ?_ <;> rw [hpos] <;>
        dsimp only [Vec2.sub_x, Vec2.sub_y] <;> ring
    have hlen0 : Vec2.length (⟨0, 0⟩ : Vec2) = 0 := by
      unfold Vec2.length
      norm_num
    simp only [calculate_gravity, hdir]
    rw [if_pos hlen0]
  · intro hne hh hs
    have hdne : a.position - vpos ≠ ⟨0, 0⟩ := by
      intro h0
      apply hne
      have hx : (a.position - vpos).x = 0 := congrArg Vec2.x h0
      have hy : (a.position - vpos).y = 0 := congrArg Vec2.y h0
      dsimp only [Vec2.sub_x, Vec2.sub_y] at hx hy
      exact Vec2.eq_of_xy (by linarith) (by linarith)
    have hdpos : 0 < Vec2.length (a.position - vpos) := Vec2.length_pos _ hdne
    have hdz : ¬ Vec2.length (a.position - vpos) = 0 := ne_of_gt hdpos
    have hLL : Vec2.length (a.position - vpos) * Vec2.length (a.position - vpos)
        = Vec2.length_squared (a.position - vpos) := by
      rw [← Vec2.sq_length]
      ring
    have key : calculate_gravity vpos a 0.5 h ls
        = (min 2 (0.5 * h * asteroid_level a ls
            / Vec2.length_squared (a.position - vpos))) • Vec2.normalize (a.position - vpos) := by
      simp only [calculate_gravity]
      rw [if_neg hdz, hLL]
      congr 1
      rcases lt_or_le 2 (0.5 * h * asteroid_level a ls
          / Vec2.length_squared (a.position - vpos)) with hlt | hle
      · rw [if_pos hlt, min_eq_left (le_of_lt hlt)]
      · rw [if_neg (not_lt.mpr hle), min_eq_right hle]
    have hq : 0 ≤ 0.5 * h * asteroid_level a ls / Vec2.length_squared (a.position - vpos) := by
      apply div_nonneg
      · exact mul_nonneg (mul_nonneg (by norm_num) hh) hs
      · unfold Vec2.length_squared
        positivity
    have hfm : 0 ≤ min 2 (0.5 * h * asteroid_level a ls
        / Vec2.length_squared (a.position - vpos)) := le_min (by norm_num) hq
    constructor
    · rw [key, Vec2.length_smul, Vec2.length_normalize _ hdne, mul_one,
        abs_of_nonneg hfm, max_eq_right hfm]
    · rw [key, Vec2.length_smul, Vec2.length_normalize _ hdne, mul_one,
        abs_of_nonneg hfm]
  · intro v gd h1 h2
    simp only [check_vaisseau_asteroids, check_vaisseau_loop]
    rw [if_neg (not_lt.mpr h1), if_pos h2]
    split_ifs with h3
    · rfl
    · rfl

/-- Witness for claim C6: at identical positions the computed pull is zero. -/
theorem claim_C6_witness :
    calculate_gravity ⟨3, 4⟩ ⟨⟨3, 4⟩, ⟨0, 0⟩, 1, false⟩ 0.5 30 (40, 20, 10) = ⟨0, 0⟩ :=
  (claim_C6_gravity ⟨3, 4⟩ ⟨⟨3, 4⟩, ⟨0, 0⟩, 1, false⟩ 30 (40, 20, 10)).1 rfl

/-- Claim C4: with the craft at (10, 10) and three asteroids of levels 1, 2
and 3 placed so that only the level 1 asteroid is within collision range
while the other two are within gravity range but outside collision range, one
run of the craft asteroid pass lowers the shield by exactly 1 (not 2 or 3)
and replaces the craft speed with the gravity pull of the level 1 asteroid. -/
theorem claim_C4_scenario (v : Vaisseau) (a1 a2 a3 : Asteroid)
    (h gd : ℝ) (ls : ℝ × ℝ × ℝ)
    (hpos : v.position = ⟨10, 10⟩)
    (hl1 : a1.level = 1) (hl2 : a2.level = 2) (hl3 : a3.level = 3)
    (hflag : a1.has_collided = false)
    (h1c : Vec2.length_squared (a1.position - v.position) ≤ (asteroid_level a1 ls + h) ^ 2)
    (h1g : Vec2.length_squared (a1.position - v.position) ≤ (asteroid_level a1 ls + gd) ^ 2)
    (h2c : (asteroid_level a2 ls + h) ^ 2 < Vec2.length_squared (a2.position - v.position))
    (h2g : Vec2.length_squared (a2.position - v.position) ≤ (asteroid_level a2 ls + gd) ^ 2)
    (h3c : (asteroid_level a3 ls + h) ^ 2 < Vec2.length_squared (a3.position - v.position))
    (h3g : Vec2.length_squared (a3.position - v.position) ≤ (asteroid_level a3 ls + gd) ^ 2) :
    (check_vaisseau_asteroids v [a1, a2, a3] h ls gd).1.shield = v.shield - 1 ∧
    (check_vaisseau_asteroids v [a1, a2, a3] h ls gd).1.speed
        = calculate_gravity v.position a1 0.5 h ls := by
  have hinner : Vec2.length_squared (a1.position - v.position)
      ≤ (asteroid_level a1 ls + h) ^ 2 ∧ a1.has_collided = false := ⟨h1c, hflag⟩
  simp only [check_vaisseau_asteroids, check_vaisseau_loop]
  rw [if_neg (not_lt.mpr h1c), if_pos h1g, if_pos hinner, if_pos h2c, if_pos h3c]
  constructor
  · simp [Vaisseau.handle_collision, Vaisseau.dmg_shield, collision_damage, hl1]
  · rfl

/-- Witness for claim C4: craft at (10, 10) with 5 shield, level 1 asteroid
at distance 20, level 2 at distance 70, level 3 at distance 90, craft radius
30 and gravity distance 100. -/
theorem claim_C4_witness :
    (check_vaisseau_asteroids ⟨⟨10, 10⟩, 0, ⟨1, 0⟩, 5, 0⟩
        [⟨⟨10, 30⟩, ⟨0, 0⟩, 1, false⟩, ⟨⟨10, 80⟩, ⟨0, 0⟩, 2, false⟩,
          ⟨⟨100, 10⟩, ⟨0, 0⟩, 3, false⟩] 30 (40, 20, 10) 100).1.shield = 4 ∧
    (check_vaisseau_asteroids ⟨⟨10, 10⟩, 0, ⟨1, 0⟩, 5, 0⟩
        [⟨⟨10, 30⟩, ⟨0, 0⟩, 1, false⟩, ⟨⟨10, 80⟩, ⟨0, 0⟩, 2, false⟩,
          ⟨⟨100, 10⟩, ⟨0, 0⟩, 3, false⟩] 30 (40, 20, 10) 100).1.speed
        = calculate_gravity ⟨10, 10⟩ ⟨⟨10, 30⟩, ⟨0, 0⟩, 1, false⟩ 0.5 30 (40, 20, 10) := by
  have h := claim_C4_scenario ⟨⟨10, 10⟩, 0, ⟨1, 0⟩, 5, 0⟩
    ⟨⟨10, 30⟩, ⟨0, 0⟩, 1, false⟩ ⟨⟨10, 80⟩, ⟨0, 0⟩, 2, false⟩ ⟨⟨100, 10⟩, ⟨0, 0⟩, 3, false⟩
    30 100 (40, 20, 10) rfl rfl rfl rfl rfl
    (by norm_num [Vec2.length_squared, asteroid_level])
    (by norm_num [Vec2.length_squared, asteroid_level])
    (by norm_num [Vec2.length_squared, asteroid_level])
    (by norm_num [Vec2.length_squared, asteroid_level])
    (by norm_num [Vec2.length_squared, asteroid_level])
    (by norm_num [Vec2.length_squared, asteroid_level])
  refine ⟨?_, h.2⟩
  rw [h.1]
  norm_num

/-- Claim C1: the wrap bound invariant fails on the craft. With no keys held,
a craft at the in bounds position (0, 0) with speed (-0.5, 0) on a 100 by 100
screen is moved by update_position to x = 100.4975, outside the screen: after
friction the speed is (-0.4975, 0), the moved x coordinate is negative, and
the negative branch of the craft wrap computes max - coord, which exceeds
max. The asteroid wrap (max + coord) would have produced 99.5025 instead. -/
theorem claim_C1_craft_wrap_escape :
    in_bounds 100 100 (⟨⟨0, 0⟩, 0, ⟨-0.5, 0⟩, 5, 0⟩ : Vaisseau).position ∧
    ¬ in_bounds 100 100
        ((Vaisseau.update_position ⟨⟨0, 0⟩, 0, ⟨-0.5, 0⟩, 5, 0⟩
          ⟨false, false, false, false⟩ 100 100).position) := by
  have hlen1 : Vec2.length ⟨-0.5, 0⟩ = 0.5 := by
    unfold Vec2.length
    rw [show ((⟨-0.5, 0⟩ : Vec2).x ^ 2 + (⟨-0.5, 0⟩ : Vec2).y ^ 2) = (0.5 : ℝ) ^ 2 by
          norm_num,
      Real.sqrt_sq (by norm_num)]
  have hlen2 : Vec2.length ⟨-0.4975, 0⟩ = 0.4975 := by
    unfold Vec2.length
    rw [show ((⟨-0.4975, 0⟩ : Vec2).x ^ 2 + (⟨-0.4975, 0⟩ : Vec2).y ^ 2) = (0.4975 : ℝ) ^ 2 by
          norm_num,
      Real.sqrt_sq (by norm_num)]
  have hsp : (0.995 : ℝ) • (⟨-0.5, 0⟩ : Vec2) = ⟨-0.4975, 0⟩ := by
    refine Vec2.eq_of_xy ?_ ?_ <;> norm_num
  have hadd1 : (⟨-0.4975, 0⟩ : Vec2) + ⟨0, 0⟩ = ⟨-0.4975, 0⟩ := by
    refine Vec2.eq_of_xy ?_ ?_ <;> norm_num
  have hadd2 : (⟨0, 0⟩ : Vec2) + ⟨-0.4975, 0⟩ = ⟨-0.4975, 0⟩ := by
    refine Vec2.eq_of_xy ?_ ?_ <;> norm_num
  have hbound : Vaisseau.bound_position ⟨-0.4975, 0⟩ 100 100 = ⟨100.4975, 0⟩ := by
    unfold Vaisseau.bound_position Vaisseau.wrap_position
    refine Vec2.eq_of_xy ?_ ?_ <;> norm_num
  have hcond1 : (0.01 : ℝ) < Vec2.length ⟨-0.5, 0⟩ := by
    rw [hlen1]
    norm_num
  have hcond2 : ¬ ((1 : ℝ) < Vec2.length ⟨-0.4975, 0⟩) := by
    rw [hlen2]
    norm_num
  have hupd : (Vaisseau.update_position ⟨⟨0, 0⟩, 0, ⟨-0.5, 0⟩, 5, 0⟩
      ⟨false, false, false, false⟩ 100 100).position = ⟨100.4975, 0⟩ := by
    simp only [Vaisseau.update_position]
    simp [hcond1, hcond2, hsp, hadd1, hadd2, hbound]
  refine ⟨by norm_num [in_bounds], ?_⟩
  rw [hupd]
  norm_num [in_bounds]

theorem scan_one_delta_nonneg (r : ℝ) (ls : ℝ × ℝ × ℝ) (m : Missile) :
    ∀ (asts : List Asteroid) (idx : ℕ), 0 ≤ (scan_one r ls m asts idx).delta := by
  intro asts
  induction asts with
  | nil =>
    intro idx
    simp [scan_one]
  | cons a rest ih =>
    intro idx
    simp only [scan_one]
    split_ifs with h
    · exact ih (idx + 1)
    · show (0 : ℤ) ≤ (a.level : ℤ) * 10
      positivity

theorem scan_all_delta_nonneg (r : ℝ) (ls : ℝ × ℝ × ℝ) :
    ∀ (ms : List Missile) (asts : List Asteroid), 0 ≤ (scan_all r ls ms asts).delta := by
  intro ms
  induction ms with
  | nil =>
    intro asts
    simp [scan_all]
  | cons m rest ih =>
    intro asts
    simp only [scan_all]
    exact add_nonneg (scan_one_delta_nonneg r ls m asts 0) (ih _)

theorem check_missiles_score (ms : List Missile) (asts : List Asteroid) (r : ℝ)
    (ls : ℝ × ℝ × ℝ) (s : ℤ) (out : List Missile × List Asteroid × ℤ)
    (h : check_missiles_asteroids ms asts r ls s = some out) :
    out.2.2 = s + (scan_all r ls ms asts).delta := by
  simp only [check_missiles_asteroids] at h
  rcases hrem : remove_all (scan_all r ls ms asts).asteroids
      (sort_desc (scan_all r ls ms asts).to_remove) with _ | l
  · rw [hrem] at h
    simp at h
  · rw [hrem] at h
    simp only [Option.some.injEq] at h
    obtain rfl := h
    rfl

/-- Claim C3: the safe removal part of the claim fails. With two missiles
whose first in range match is the same single asteroid, the removal index
list holds the index twice; after the first remove the list is empty and the
second remove is out of range: the source panics, the model yields none. Both
missiles sit at the origin, over the single level 1 asteroid at the origin. -/
theorem claim_C3_duplicate_removal_panic :
    check_missiles_asteroids
      [⟨⟨0, 0⟩, ⟨0, -1.5⟩, false⟩, ⟨⟨0, 0⟩, ⟨0, -1.5⟩, false⟩]
      [⟨⟨0, 0⟩, ⟨0, 0⟩, 1, false⟩] 7 (40, 20, 10) 0 = none := by
  norm_num [check_missiles_asteroids, scan_all, scan_one, Asteroid.handle_collision,
    Missile.handle_collision, asteroid_level, Vec2.length_squared, sort_desc,
    insert_desc, remove_all]

/-- Claim C9: a missile hit on an asteroid of level L adds exactly L times 10
to the score; the pass never decreases the score; and one pass in which three
missiles destroy a level 3, a level 2 and a level 1 asteroid takes the score
from 0 to exactly 60. -/
theorem claim_C9_score :
    (∀ (m : Missile) (a : Asteroid) (r : ℝ) (ls : ℝ × ℝ × ℝ) (s : ℤ),
      Vec2.length_squared (m.position - a.position) < (asteroid_level a ls + r) ^ 2 →
      Option.map (fun out => out.2.2) (check_missiles_asteroids [m] [a] r ls s)
        = some (s + (a.level : ℤ) * 10)) ∧
    (∀ (ms : List Missile) (asts : List Asteroid) (r : ℝ) (ls : ℝ × ℝ × ℝ) (s : ℤ)
      (out : List Missile × List Asteroid × ℤ),
      check_missiles_asteroids ms asts r ls s = some out → s ≤ out.2.2) ∧
    Option.map (fun out => out.2.2)
      (check_missiles_asteroids
        [⟨⟨0, 0⟩, ⟨0, -1.5⟩, false⟩, ⟨⟨200, 0⟩, ⟨0, -1.5⟩, false⟩,
          ⟨⟨400, 0⟩, ⟨0, -1.5⟩, false⟩]
        [⟨⟨0, 0⟩, ⟨0, 0⟩, 3, false⟩, ⟨⟨200, 0⟩, ⟨0, 0⟩, 2, false⟩,
          ⟨⟨400, 0⟩, ⟨0, 0⟩, 1, false⟩]
        7 (40, 20, 10) 0) = some 60 := by
  refine ⟨?_, ?_, ?_⟩
  · intro m a r ls s h
    have hnot : ¬ ((asteroid_level a ls + r) ^ 2
        ≤ Vec2.length_squared (m.position - a.position)) := not_le.mpr h
    simp only [check_missiles_asteroids, scan_all, scan_one]
    rw [if_neg hnot]
    simp [remove_all, sort_desc, insert_desc]
  · intro ms asts r ls s out h
    have hs := check_missiles_score ms asts r ls s out h
    have hd := scan_all_delta_nonneg r ls ms asts
    rw [hs]
    linarith
  · norm_num [check_missiles_asteroids, scan_all, scan_one, Asteroid.handle_collision,
      Missile.handle_collision, asteroid_level, Vec2.length_squared, sort_desc,
      insert_desc, remove_all, Asteroid.split_asteroid]

theorem Vec2.length_polar (m v : ℝ) :
    Vec2.length ⟨m * Real.cos v, m * Real.sin v⟩ = |m| := by
  unfold Vec2.length
  rw [show ((⟨m * Real.cos v, m * Real.sin v⟩ : Vec2).x ^ 2
        + (⟨m * Real.cos v, m * Real.sin v⟩ : Vec2).y ^ 2)
      = m ^ 2 * (Real.sin v ^ 2 + Real.cos v ^ 2) by dsimp only; ring,
    Real.sin_sq_add_cos_sq, mul_one, Real.sqrt_sq_eq_abs]

theorem abs_bound_of_Ico (lo hi m : ℝ) (h1 : lo ≤ m) (h2 : m < hi) (hneg : -lo < hi) :
    lo ≤ |m| ∧ |m| < hi := by
  rcases le_or_lt 0 m with hm | hm
  · rw [abs_of_nonneg hm]
    exact ⟨h1, h2⟩
  · rw [abs_of_neg hm]
    exact ⟨by linarith, by linarith⟩

theorem spawn_asteroids_ok (minS maxS : ℝ) (ls : ℝ × ℝ × ℝ) (posO : Option Vec2)
    (rng : ℕ → ℝ × ℝ) (rng_pos : ℕ → Vec2)
    (hlt : minS < maxS) (hneg : -minS < maxS)
    (hu : ∀ i, 0 ≤ (rng i).2 ∧ (rng i).2 < 1) :
    ∀ (k i : ℕ), ∃ l, spawn_asteroids minS maxS ls posO rng rng_pos i k = some l ∧
      l.length = k ∧
      ∀ a ∈ l, a.level = 3 ∧ minS ≤ Vec2.length a.speed ∧ Vec2.length a.speed < maxS := by
  intro k
  induction k with
  | zero =>
    intro i
    exact ⟨[], rfl, rfl, by simp⟩
  | succ n ih =>
    intro i
    obtain ⟨l, hl, hlen, hprop⟩ := ih (i + 1)
    have hpi : (0 : ℝ) < 2 * Real.pi := by positivity
    have h1 : gen_range 0 (2 * Real.pi) (rng i).1
        = some (0 + (rng i).1 * (2 * Real.pi - 0)) := by
      unfold gen_range
      rw [if_pos hpi]
    have h2 : gen_range minS maxS (rng i).2
        = some (minS + (rng i).2 * (maxS - minS)) := by
      unfold gen_range
      rw [if_pos hlt]
    have hmain : spawn_asteroids minS maxS ls posO rng rng_pos i (n + 1)
        = some (Asteroid.new 3
            ⟨(minS + (rng i).2 * (maxS - minS)) * Real.cos (0 + (rng i).1 * (2 * Real.pi - 0)),
              (minS + (rng i).2 * (maxS - minS)) * Real.sin (0 + (rng i).1 * (2 * Real.pi - 0))⟩
            ls posO (rng_pos i) :: l) := by
      simp only [spawn_asteroids, h1, h2, hl, Option.map_some']
    refine ⟨_, hmain, by simp [hlen], ?_⟩
    intro a ha
    rcases List.mem_cons.mp ha with rfl | hmem
    · refine ⟨rfl, ?_⟩
      have hb : minS ≤ minS + (rng i).2 * (maxS - minS)
          ∧ minS + (rng i).2 * (maxS - minS) < maxS := by
        constructor
        · nlinarith [(hu i).1, (hu i).2]
        · nlinarith [(hu i).1, (hu i).2]
      have hsp : Vec2.length (Asteroid.new 3
          ⟨(minS + (rng i).2 * (maxS - minS)) * Real.cos (0 + (rng i).1 * (2 * Real.pi - 0)),
            (minS + (rng i).2 * (maxS - minS)) * Real.sin (0 + (rng i).1 * (2 * Real.pi - 0))⟩
          ls posO (rng_pos i)).speed = |minS + (rng i).2 * (maxS - minS)| := by
        dsimp only [Asteroid.new]
        exact Vec2.length_polar _ _
      rw [hsp]
      exact abs_bound_of_Ico minS maxS _ hb.1 hb.2 hneg
    · exact hprop a hmem

/-- Counterexample to claim C8 as stated: with speed factor 0.2 the dynamic
speed range is empty (min_speed is 0.52, max_speed is 0.4) and gen_range
panics, so a reset with one asteroid yields no state at all rather than a one
element collection. -/
theorem claim_C8_counterexample :
    reset_game 1 0.2 true (40, 20, 10) 100 100 0 (fun _ => (0, 0)) (fun _ => ⟨0, 0⟩)
      = none := by
  have hpi : (0 : ℝ) < 2 * Real.pi := by positivity
  have h1 : gen_range 0 (2 * Real.pi) (0 : ℝ) = some (0 + 0 * (2 * Real.pi - 0)) := by
    unfold gen_range
    rw [if_pos hpi]
  have h2 : gen_range (0.2 + (1 - 0.2) * 0.4) (0.2 * 2) (0 : ℝ) = none := by
    unfold gen_range
    rw [if_neg (by norm_num)]
  simp only [reset_game, spawn_asteroids, h1, h2]

/-- Claim C8 (amended): for every asteroid count N and every speed factor s
for which the dynamic speed range is not empty (min_speed below max_speed,
equivalently s above 0.25 — the configuration menu offers only 0.3 to 5.0),
reset_game yields exactly N asteroids, all of level 3, each with speed
magnitude in the half open range from min_speed to max_speed, an empty
missile collection, score 0, and in test mode the craft at the supplied fixed
position (0, 0). For speed factors at or below 0.25 the claim as stated fails
because gen_range panics on the empty range (see the counterexample). -/
theorem claim_C8_reset_game (N : ℕ) (s : ℝ) (test : Bool) (ls : ℝ × ℝ × ℝ)
    (W H t : ℝ) (rng : ℕ → ℝ × ℝ) (rng_pos : ℕ → Vec2)
    (hlt : 0.2 + (1 - s) * 0.4 < s * 2)
    (hu : ∀ i, 0 ≤ (rng i).2 ∧ (rng i).2 < 1) :
    ∃ asts, reset_game N s test ls W H t rng rng_pos
        = some (asts, Vaisseau.new (if test then some ⟨0, 0⟩ else none)
            (if test then some 0 else none) W H t, [], 0) ∧
      asts.length = N ∧
      (∀ a ∈ asts, a.level = 3 ∧
        0.2 + (1 - s) * 0.4 ≤ Vec2.length a.speed ∧ Vec2.length a.speed < s * 2) ∧
      (test = true → (Vaisseau.new (if test then some ⟨0, 0⟩ else none)
          (if test then some 0 else none) W H t).position = ⟨0, 0⟩) := by
  have hneg : -(0.2 + (1 - s) * 0.4) < s * 2 := by nlinarith
  obtain ⟨l, hl, hlen, hprop⟩ := spawn_asteroids_ok (0.2 + (1 - s) * 0.4) (s * 2) ls
    (if test then some ⟨0, 0⟩ else none) rng rng_pos hlt hneg hu N 0
  refine ⟨l, ?_, hlen, hprop, ?_⟩
  · simp only [reset_game, hl]
  · intro ht
    simp [ht, Vaisseau.new]

/-- Witness for claim C8: speed factor 1 and asteroid count 2 with the
constant zero rng draws satisfy the hypotheses and the theorem applies. -/
theorem claim_C8_witness :
    ∃ asts, reset_game 2 1 true (40, 20, 10) 100 100 0 (fun _ => (0, 0)) (fun _ => ⟨0, 0⟩)
        = some (asts, Vaisseau.new (if true then some ⟨0, 0⟩ else none)
            (if true then some 0 else none) 100 100 0, [], 0) ∧
      asts.length = 2 ∧
      (∀ a ∈ asts, a.level = 3 ∧
        0.2 + (1 - 1) * 0.4 ≤ Vec2.length a.speed ∧ Vec2.length a.speed < 1 * 2) ∧
      (true = true → (Vaisseau.new (if true then some ⟨0, 0⟩ else none)
          (if true then some 0 else none) 100 100 0).position = ⟨0, 0⟩) :=
  claim_C8_reset_game 2 1 true (40, 20, 10) 100 100 0 (fun _ => (0, 0)) (fun _ => ⟨0, 0⟩)
    (by norm_num) (fun i => ⟨by norm_num, by norm_num⟩)

theorem shield_ite (v : Vaisseau) (c : Prop) [Decidable c] (g : Vec2) :
    (if c then { v with speed := g } else v).shield = v.shield := by
  split_ifs <;> rfl

theorem handle_collision_fst (a : Asteroid) (o : ℕ) (c : Bool) (vm : Vec2) :
    (Asteroid.handle_collision a o c vm).1 = { a with has_collided := c } := by
  simp only [Asteroid.handle_collision]
  split_ifs <;> rfl

theorem check_vaisseau_loop_shield (vpos : Vec2) (h gd : ℝ) (ls : ℝ × ℝ × ℝ) :
    ∀ (asts : List Asteroid) (v : Vaisseau),
      (check_vaisseau_loop vpos h gd ls v asts).1.shield
        = v.shield - damage_sum vpos h ls asts := by
  intro asts
  induction asts with
  | nil =>
    intro v
    simp [check_vaisseau_loop, damage_sum]
  | cons a rest ih =>
    intro v
    simp only [check_vaisseau_loop, damage_sum]
    by_cases h1 : (asteroid_level a ls + h) ^ 2 < Vec2.length_squared (a.position - vpos)
    · rw [if_pos h1, if_neg (fun hx => absurd hx.1 (not_le.mpr h1))]
      dsimp only
      rw [ih]
      ring
    · rw [if_neg h1]
      by_cases h2 : Vec2.length_squared (a.position - vpos)
          ≤ (asteroid_level a ls + h) ^ 2 ∧ a.has_collided = false
      · rw [if_pos h2, if_pos h2]
        dsimp only
        rw [ih]
        simp only [Vaisseau.handle_collision, Vaisseau.dmg_shield, shield_ite]
        ring
      · rw [if_neg h2, if_neg h2]
        dsimp only
        rw [ih, shield_ite]
        ring

theorem check_vaisseau_loop_flags (vpos : Vec2) (h gd : ℝ) (ls : ℝ × ℝ × ℝ) :
    ∀ (asts : List Asteroid) (v : Vaisseau),
      List.Forall₂ (fun x y => x.has_collided = true → y.has_collided = true) asts
        (check_vaisseau_loop vpos h gd ls v asts).2 := by
  intro asts
  induction asts with
  | nil =>
    intro v
    exact List.Forall₂.nil
  | cons a rest ih =>
    intro v
    simp only [check_vaisseau_loop, handle_collision_fst]
    split_ifs with h1 h2 h3
    all_goals
      first
      | exact List.Forall₂.cons (fun hx => hx) (ih _)
      | exact List.Forall₂.cons (fun _ => rfl) (ih _)

theorem scan_one_flags (r : ℝ) (ls : ℝ × ℝ × ℝ) (m : Missile) :
    ∀ (asts : List Asteroid) (idx : ℕ),
      List.Forall₂ (fun x y => x.has_collided = true → y.has_collided = true) asts
        (scan_one r ls m asts idx).asteroids := by
  intro asts
  induction asts with
  | nil =>
    intro idx
    exact List.Forall₂.nil
  | cons a rest ih =>
    intro idx
    simp only [scan_one]
    split_ifs with h1
    · exact List.Forall₂.cons (fun hx => hx) (ih (idx + 1))
    · refine List.Forall₂.cons ?_ (List.forall₂_same.mpr fun x _ => fun hx => hx)
      intro _
      rw [handle_collision_fst]

theorem forall₂_flag_trans {l1 l2 l3 : List Asteroid}
    (h12 : List.Forall₂ (fun x y => x.has_collided = true → y.has_collided = true) l1 l2)
    (h23 : List.Forall₂ (fun x y => x.has_collided = true → y.has_collided = true) l2 l3) :
    List.Forall₂ (fun x y => x.has_collided = true → y.has_collided = true) l1 l3 := by
  induction h12 generalizing l3 with
  | nil =>
    cases h23
    exact List.Forall₂.nil
  | cons hab h ih =>
    cases h23 with
    | cons hbc h' => exact List.Forall₂.cons (fun hx => hbc (hab hx)) (ih h')

theorem scan_all_flags (r : ℝ) (ls : ℝ × ℝ × ℝ) :
    ∀ (ms : List Missile) (asts : List Asteroid),
      List.Forall₂ (fun x y => x.has_collided = true → y.has_collided = true) asts
        (scan_all r ls ms asts).asteroids := by
  intro ms
  induction ms with
  | nil =>
    intro asts
    exact List.forall₂_same.mpr fun x _ => fun hx => hx
  | cons m rest ih =>
    intro asts
    simp only [scan_all]
    exact forall₂_flag_trans (scan_one_flags r ls m asts 0) (ih _)

theorem remove_all_sublist :
    ∀ (ids : List ℕ) (asts out : List Asteroid),
      remove_all asts ids = some out → List.Sublist out asts := by
  intro ids
  induction ids with
  | nil =>
    intro asts out h
    simp only [remove_all, Option.some.injEq] at h
    rw [h]
  | cons i rest ih =>
    intro asts out h
    simp only [remove_all] at h
    split_ifs at h with hi
    exact (ih _ _ h).trans (List.eraseIdx_sublist asts i)

theorem check_missiles_mem (ms : List Missile) (asts : List Asteroid) (r : ℝ)
    (ls : ℝ × ℝ × ℝ) (s : ℤ) (out : List Missile × List Asteroid × ℤ)
    (h : check_missiles_asteroids ms asts r ls s = some out) :
    ∀ x ∈ out.2.1, x ∈ (scan_all r ls ms asts).asteroids
      ∨ x ∈ (scan_all r ls ms asts).new_asteroids := by
  simp only [check_missiles_asteroids] at h
  rcases hrem : remove_all (scan_all r ls ms asts).asteroids
      (sort_desc (scan_all r ls ms asts).to_remove) with _ | l
  · rw [hrem] at h
    simp at h
  · rw [hrem] at h
    simp only [Option.some.injEq] at h
    obtain rfl := h
    intro x hx
    rcases List.mem_append.mp hx with hx1 | hx2
    · exact Or.inl ((remove_all_sublist _ _ _ hrem).subset hx1)
    · exact Or.inr hx2

theorem check_vaisseau_loop_flags_set (vpos : Vec2) (h gd : ℝ) (ls : ℝ × ℝ × ℝ) :
    ∀ (asts : List Asteroid) (v : Vaisseau),
      List.Forall₂ (fun x y =>
        Vec2.length_squared (x.position - vpos) ≤ (asteroid_level x ls + h) ^ 2 →
        x.has_collided = false → y.has_collided = true) asts
        (check_vaisseau_loop vpos h gd ls v asts).2 := by
  intro asts
  induction asts with
  | nil =>
    intro v
    exact List.Forall₂.nil
  | cons a rest ih =>
    intro v
    simp only [check_vaisseau_loop, handle_collision_fst]
    split_ifs with h1 h2 h3
    all_goals
      first
      | exact List.Forall₂.cons (fun hin hfl => absurd hin (not_le.mpr h1)) (ih _)
      | exact List.Forall₂.cons (fun _ _ => rfl) (ih _)
      | exact List.Forall₂.cons (fun hin hfl => absurd ⟨hin, hfl⟩ h2) (ih _)

/-- Claim C10: neither collision pass ever resets a stored collided flag back
to false: the craft pass and the missile scan are flag monotone on the
asteroid list, an asteroid that damages the craft (in collision range with
the flag still clear) leaves the craft pass with the flag set, the asteroids
that survive the removal phase come from the scanned list or are fresh
fragments, and asteroid update_position never touches the flag; moreover the
craft pass shield loss is exactly the damage sum over the asteroids that are
in collision range with the flag still clear, so an asteroid whose flag is
already set contributes no damage in any later pass of its lifetime. -/
theorem claim_C10_flag_monotone (v : Vaisseau) (asts : List Asteroid)
    (h gd r : ℝ) (ls : ℝ × ℝ × ℝ) (ms : List Missile) (s : ℤ) (W H : ℝ)
    (a : Asteroid) :
    (check_vaisseau_asteroids v asts h ls gd).1.shield
        = v.shield - damage_sum v.position h ls asts ∧
    List.Forall₂ (fun x y => x.has_collided = true → y.has_collided = true) asts
      (check_vaisseau_asteroids v asts h ls gd).2 ∧
    List.Forall₂ (fun x y =>
      Vec2.length_squared (x.position - v.position) ≤ (asteroid_level x ls + h) ^ 2 →
      x.has_collided = false → y.has_collided = true) asts
      (check_vaisseau_asteroids v asts h ls gd).2 ∧
    List.Forall₂ (fun x y => x.has_collided = true → y.has_collided = true) asts
      (scan_all r ls ms asts).asteroids ∧
    (∀ out, check_missiles_asteroids ms asts r ls s = some out →
      ∀ x ∈ out.2.1, x ∈ (scan_all r ls ms asts).asteroids
        ∨ x ∈ (scan_all r ls ms asts).new_asteroids) ∧
    (Asteroid.update_position a W H).has_collided = a.has_collided :=
  ⟨check_vaisseau_loop_shield v.position h gd ls asts v,
    check_vaisseau_loop_flags v.position h gd ls asts v,
    check_vaisseau_loop_flags_set v.position h gd ls asts v,
    scan_all_flags r ls ms asts,
    fun out hout => check_missiles_mem ms asts r ls s out hout,
    rfl⟩

/-- Claim C7: fire_missile produces a missile exactly when the fire key is
held and at least half a time unit passed since the last shot; on success the
last shot time becomes the current time and the missile spawns at the craft
position with the speed derived from the craft rotation; when nothing fires
the craft state is unchanged. -/
theorem claim_C7_fire_missile (v : Vaisseau) (space : Bool) (t : ℝ) :
    ((∃ m, (Vaisseau.fire_missile v space t).2 = some m) ↔
      (space = true ∧ 0.5 ≤ t - v.last_shot)) ∧
    (∀ m, (Vaisseau.fire_missile v space t).2 = some m →
      m.position = v.position ∧
      m.speed = ⟨Real.sin v.rotation * 1.5, -Real.cos v.rotation * 1.5⟩ ∧
      (Vaisseau.fire_missile v space t).1 = { v with last_shot := t }) ∧
    ((Vaisseau.fire_missile v space t).2 = none →
      (Vaisseau.fire_missile v space t).1 = v) := by
  unfold Vaisseau.fire_missile
  split_ifs with h
  · refine ⟨⟨fun _ => h, fun _ => ⟨_, rfl⟩⟩, ?_, ?_⟩
    · intro m hm
      simp only [Option.some.injEq] at hm
      subst hm
      exact ⟨rfl, rfl, rfl⟩
    · intro hnone
      simp at hnone
  · refine ⟨⟨?_, fun hc => absurd hc h⟩, ?_, fun _ => rfl⟩
    · rintro ⟨m, hm⟩
      simp at hm
    · intro m hm
      simp at hm

end
